import Mathlib

/-!
Verification of the async web-search pipeline in
`backend/api/websearch/async_web_search_service.py`.

The Python module is shallowly embedded here.  External effects (the LLM
call, the two search-API HTTP requests, the page/PDF fetch, the
BeautifulSoup DOM extraction and the PyPDF2 page extraction) are abstracted
as an `Env` of outcome functions; a Python exception is `Except.error ()`,
a Python `try/except` block is `pyTry`.  All pure string manipulation
(whitespace collapsing, regex boilerplate removal, line parsing, URL host
parsing) is translated directly from the source.
-/

namespace WebSearch

/-- Python `\s` for the ASCII range: space, tab, newline, carriage return,
vertical tab, form feed.  All strings handled by the service are treated at
this level. -/
def pyIsSpace (c : Char) : Bool :=
  c = ' ' || c = '\t' || c = '\n' || c = '\r' || c = '\x0b' || c = '\x0c'

/-- Does `l` start with `pre` (exact characters)? -/
def listStartsWith : List Char → List Char → Bool
  | [], _ => true
  | _ :: _, [] => false
  | p :: ps, c :: cs => p = c && listStartsWith ps cs

/-- Python's `needle in hay` substring test on character lists. -/
def listInfixOf (needle : List Char) : List Char → Bool
  | [] => needle.isEmpty
  | c :: cs => listStartsWith needle (c :: cs) || listInfixOf needle cs

/-- Python `needle in hay` on strings. -/
def strContains (hay needle : String) : Bool :=
  listInfixOf needle.data hay.data

/-- Python `str.lower()` (ASCII-level). -/
def lowerStr (s : String) : String :=
  ⟨s.data.map Char.toLower⟩

/-- Python `str.strip()`: drop leading and trailing whitespace. -/
def stripChars (l : List Char) : List Char :=
  ((l.dropWhile pyIsSpace).reverse.dropWhile pyIsSpace).reverse

/-- Python `str.strip()` on strings. -/
def stripStr (s : String) : String :=
  ⟨stripChars s.data⟩

/-- Python `str.startswith` on strings. -/
def strStartsWith (s pre : String) : Bool :=
  listStartsWith pre.data s.data

/-- Python `str.endswith` on strings. -/
def strEndsWith (s suf : String) : Bool :=
  listStartsWith suf.data.reverse s.data.reverse

/-- One step of `re.sub(r'\s+', ' ', text)`: each maximal whitespace run
becomes a single space.  `prevWs` records whether the previous character was
whitespace (in which case further whitespace is dropped). -/
def collapseWsAux : Bool → List Char → List Char
  | _, [] => []
  | prevWs, c :: cs =>
    if pyIsSpace c then
      if prevWs then collapseWsAux true cs else ' ' :: collapseWsAux true cs
    else c :: collapseWsAux false cs

/-- `re.sub(r'\s+', ' ', text)`. -/
def collapseWs (l : List Char) : List Char :=
  collapseWsAux false l

/-- Case-insensitive literal prefix match; returns the number of characters
consumed. -/
def matchLitCI (pat : List Char) (l : List Char) : Option Nat :=
  match pat, l with
  | [], _ => some 0
  | _ :: _, [] => none
  | p :: ps, c :: cs =>
    if p.toLower = c.toLower then
      (matchLitCI ps cs).map (· + 1)
    else none

/-- Length of the leading whitespace run (`\s*`, greedy). -/
def wsRun (l : List Char) : Nat :=
  (l.takeWhile pyIsSpace).length

/-- Match a sequence of literal words separated by `\s+` (one or more
whitespace characters between consecutive words), case-insensitively;
returns the number of characters consumed. -/
def matchPhrase : List (List Char) → List Char → Option Nat
  | [], _ => some 0
  | [w], l => matchLitCI w l
  | w :: w' :: ws, l =>
    match matchLitCI w l with
    | none => none
    | some n =>
      let rest := l.drop n
      let k := wsRun rest
      if k = 0 then none
      else
        match matchPhrase (w' :: ws) (rest.drop k) with
        | none => none
        | some m => some (n + k + m)

/-- `re.sub(pat, '', text)` for a matcher `m` that reports the number of
characters a match at the current position consumes.  The scan is
left-to-right and resumes after each match, exactly as `re.sub` does.  All
matchers used below consume at least one character when they succeed, so
the list shrinks at every step and `fuel = length + 1` (supplied by
`subScan`) is never exhausted. -/
def subScanFuel (m : List Char → Option Nat) : Nat → List Char → List Char
  | 0, l => l
  | _ + 1, [] => []
  | fuel + 1, c :: cs =>
    match m (c :: cs) with
    | some n => subScanFuel m fuel (cs.drop (n - 1))
    | none => c :: subScanFuel m fuel cs

/-- `re.sub(pat, '', text)`; see `subScanFuel`. -/
def subScan (m : List Char → Option Nat) (l : List Char) : List Char :=
  subScanFuel m (l.length + 1) l

/-- Matcher for `Cookie\s+Policy|Privacy\s+Policy|Terms\s+of\s+Service`
(`re.IGNORECASE`); alternatives are tried in order, as the regex engine
does. -/
def matchBoilerplate1 (l : List Char) : Option Nat :=
  match matchPhrase ["cookie".data, "policy".data] l with
  | some n => some n
  | none =>
    match matchPhrase ["privacy".data, "policy".data] l with
    | some n => some n
    | none => matchPhrase ["terms".data, "of".data, "service".data] l

/-- Matcher for `Skip\s+to\s+(main\s+)?content` (`re.IGNORECASE`); the
greedy optional group is tried with `main` first. -/
def matchBoilerplate2 (l : List Char) : Option Nat :=
  match matchPhrase ["skip".data, "to".data, "main".data, "content".data] l with
  | some n => some n
  | none => matchPhrase ["skip".data, "to".data, "content".data] l

/-- Matcher for `Advertisement\s*` (`re.IGNORECASE`): the literal word and
the greedy whitespace that follows it. -/
def matchBoilerplate3 (l : List Char) : Option Nat :=
  match matchLitCI "advertisement".data l with
  | some n => some (n + wsRun (l.drop n))
  | none => none

/-- Lines 402-403: collapse whitespace runs and strip. -/
def normalizedText (text : String) : List Char :=
  stripChars (collapseWs text.data)

/-- Lines 410-412: the three boilerplate-removing substitutions, applied in
source order. -/
def boilerplateStripped (l : List Char) : List Char :=
  subScan matchBoilerplate3 (subScan matchBoilerplate2 (subScan matchBoilerplate1 l))

/-- `AsyncWebSearchService._clean_text` (source lines 395-433).  Returns
`none` where Python returns `None`.  The word-repetition block (lines
414-427) only emits a debug log and never changes the returned text, so it
is omitted; the function's own `try/except` guards operations that cannot
fail in this pure model. -/
def cleanText (text : String) : Option String :=
  -- `if not text: return None`
  if text = "" then none
  -- `if not text: return None` (after whitespace normalisation)
  else if normalizedText text = [] then none
  -- `return text if text.strip() else None`
  else if stripChars (boilerplateStripped (normalizedText text)) = [] then none
  else some ⟨boilerplateStripped (normalizedText text)⟩

example : cleanText "hello Cookie Policy" = some "hello " := by decide
example : cleanText "  a   b  " = some "a b" := by decide
example : cleanText "Cookie   Policy" = none := by decide
example : cleanText " Skip to content hello" = some " hello" := by decide
example : cleanText "Advertisement   x" = some "x" := by decide

/-! ## Configuration (`backend/constants.py` and `__init__`) -/

/-- `ENABLE_DOMAIN_FILTERING` from `backend/constants.py` line 20. -/
def ENABLE_DOMAIN_FILTERING : Bool := true

/-- `ALLOWED_DOMAINS` from `backend/constants.py` lines 24-75. -/
def ALLOWED_DOMAINS : List String :=
  [ "gov", "gc.ca", "nhs.uk",
    "nih.gov", "cdc.gov", "who.int", "pubmed.ncbi.nlm.nih.gov",
    "mayoclinic.org", "webmd.com", "healthline.com",
    "autismspeaks.org", "autism.org.uk", "autismcanada.org",
    "autismontario.com", "asatonline.org", "researchautism.org",
    "autismresearchcentre.org",
    "edu",
    "psychiatry.org", "psychology.org", "apa.org", "nimh.nih.gov",
    "disabilityrightsca.org", "thearc.org", "ndss.org",
    "childrenshospital.org", "chop.edu", "sickkids.ca",
    "nejm.org", "thelancet.com", "nature.com", "sciencedirect.com",
    "springer.com", "wiley.com" ]

/-- The fields of `AsyncWebSearchService` set by `__init__` that influence
the pipeline's observable behaviour (the semaphore, headers and timeouts
only shape the HTTP requests, which the environment abstracts). -/
structure Config where
  googleApiKey : String
  googleSearchEngineId : String
  serpapiKey : String
  numSearchQueries : Nat
  numResultsPerQuery : Nat
  enableDomainFiltering : Bool
  allowedDomains : List String
  deriving DecidableEq, Repr

/-- The process environment (`os.environ`): an association list of
variables. -/
def OsEnv := List (String × String)

/-- `os.environ[key]`: raises `KeyError` (`Except.error ()`) when the
variable is absent. -/
def osEnvironItem (e : OsEnv) (key : String) : Except Unit String :=
  match e.find? (fun p => p.1 = key) with
  | some p => .ok p.2
  | none => .error ()

/-- `AsyncWebSearchService.__init__` (source lines 35-74): reads the three
credentials with `os.environ[...]` (which raises on a missing variable) and
stores the configuration, including the module-level domain-filter
constants. -/
def serviceInit (osenv : OsEnv) (numSearchQueries numResultsPerQuery : Nat) :
    Except Unit Config := do
  let g ← osEnvironItem osenv "GOOGLE_SEARCH_API_KEY"
  let cx ← osEnvironItem osenv "GOOGLE_SEARCH_ENGINE_ID"
  let sk ← osEnvironItem osenv "SERPAPI_KEY"
  pure { googleApiKey := g
         googleSearchEngineId := cx
         serpapiKey := sk
         numSearchQueries := numSearchQueries
         numResultsPerQuery := numResultsPerQuery
         enableDomainFiltering := ENABLE_DOMAIN_FILTERING
         allowedDomains := ALLOWED_DOMAINS }

/-! ## URL host parsing (`urllib.parse.urlparse`) and the domain filter -/

/-- Characters CPython's `urlsplit` removes anywhere in the URL
(`_UNSAFE_URL_BYTES_TO_REMOVE`). -/
def isUnsafeUrlChar (c : Char) : Bool :=
  c = '\t' || c = '\r' || c = '\n'

/-- C0 control characters and space, stripped from both ends by
`urlsplit`. -/
def isC0OrSpace (c : Char) : Bool :=
  c ≤ ' '

/-- Valid scheme characters after the leading letter. -/
def isSchemeChar (c : Char) : Bool :=
  c.isAlpha || c.isDigit || c = '+' || c = '-' || c = '.'

/-- Drop a `scheme:` prefix the way `urlsplit` does: the part before the
first `:` must be non-empty, start with an ASCII letter and consist of
scheme characters. -/
def dropScheme (l : List Char) : List Char :=
  match l.findIdx? (· = ':') with
  | none => l
  | some i =>
    let pre := l.take i
    if i > 0 ∧ (pre.headD ' ').isAlpha ∧ pre.all isSchemeChar then
      l.drop (i + 1)
    else l

/-- `urlparse(url).netloc`, modelled on CPython's `urlsplit`: sanitise the
input, drop a scheme prefix, and if the remainder starts with `//` take the
authority up to the next `/`, `?` or `#`; a netloc with unbalanced square
brackets raises `ValueError` (`Except.error ()`); otherwise the netloc is
empty. -/
def urlparseNetloc (url : String) : Except Unit String :=
  let l := (url.data.filter (fun c => !isUnsafeUrlChar c))
  let l := (l.dropWhile isC0OrSpace).reverse.dropWhile isC0OrSpace |>.reverse
  let l := dropScheme l
  match l with
  | '/' :: '/' :: rest =>
    let netloc := rest.takeWhile (fun c => c ≠ '/' ∧ c ≠ '?' ∧ c ≠ '#')
    if (netloc.contains '[' && !netloc.contains ']') ||
       (netloc.contains ']' && !netloc.contains '[') then
      .error ()
    else .ok ⟨netloc⟩
  | _ => .ok ""

example : urlparseNetloc "https://www.example.gov/page" = .ok "www.example.gov" := rfl
example : urlparseNetloc "foo" = .ok "" := rfl
example : urlparseNetloc "http://[foo" = .error () := rfl

/-- `AsyncWebSearchService.is_url_allowed` (source lines 77-110). -/
def isUrlAllowed (cfg : Config) (url : String) : Bool :=
  -- `if not self.enable_domain_filtering: return True`
  if !cfg.enableDomainFiltering then true
  else
    match urlparseNetloc (lowerStr url) with
    | .error _ => false  -- `except Exception: return False`
    | .ok netloc =>
      -- `if domain.startswith('www.'): domain = domain[4:]`
      let domain :=
        if strStartsWith netloc "www." then ⟨netloc.data.drop 4⟩ else netloc
      -- `if domain in allowed_domain_lower or allowed_domain_lower in domain`
      cfg.allowedDomains.any (fun ad =>
        let adl := lowerStr ad
        strContains adl domain || strContains domain adl)

/-! ## Exceptions and the external environment -/

/-- Python `try: body except Exception: handler` for an `Except`-valued
body: every raised exception is passed to the handler. -/
def pyTry (body : Except Unit α) (handler : Unit → Except Unit α) : Except Unit α :=
  match body with
  | .ok a => .ok a
  | .error e => handler e

/-- One item of the JSON array a search API returns (`data["items"]` for
Google Custom Search, `data["organic_results"]` for SerpAPI); each field is
`none` when the key is absent, mirroring `item.get(...)`. -/
structure ApiItem where
  title : Option String
  snippet : Option String
  link : Option String
  deriving DecidableEq, Repr

/-- A search-API HTTP response: the status code and the parsed JSON body.
`jsonItems = none` models a body without the `items` /`organic_results`
key; `jsonParse = .error ()` models `response.json()` raising. -/
structure ApiResp where
  status : Nat
  jsonItems : Except Unit (Option (List ApiItem))
  deriving Repr

/-- A page/PDF HTTP response (`session.get` in
`extract_content_from_url`): status, the `content-type` header (`""` when
absent), the text body (`response.text()`, which can raise), and the pages
PyPDF2 extracts from the body (`response.read()` plus `PyPDF2.PdfReader`,
either of which can raise). -/
structure PageResp where
  status : Nat
  contentType : String
  textBody : Except Unit String
  pdfPages : Except Unit (List String)

/-- The external world, as seen by one pipeline run: the caller-supplied
LLM function (which may raise), the two search APIs (a network/timeout
failure is `.error ()`), the page fetch, and the text the BeautifulSoup
selector cascade of `_extract_html_content` (source lines 341-387) produces
from a given HTML body (`.error ()` = a parsing exception).  The DOM
operations themselves live inside the BeautifulSoup library and are
abstracted as this outcome function. -/
structure Env where
  llm : String → Except Unit String
  googleGet : String → Except Unit ApiResp
  serpGet : String → Except Unit ApiResp
  fetch : String → Except Unit PageResp
  htmlExtract : String → Except Unit String

/-! ## Query generation (`generate_search_queries`, source lines 112-169) -/

/-- The f-string instruction prompt of lines 124-136 (indentation
normalised to single line breaks). -/
def queryGenerationPrompt (cfg : Config) (prompt : String) : String :=
  "Given the following user question, generate " ++
  toString cfg.numSearchQueries ++
  " different search queries that would help find comprehensive information to answer the question.\n" ++
  "Make the search queries:\n1. Specific and focused\n2. Use different keywords and approaches\n" ++
  "3. Cover different aspects of the topic\n4. Be suitable for web search engines\n" ++
  "User question: " ++ prompt ++
  "\nRespond with only the search queries, one per line, without numbering or bullets:"

/-- `re.sub(r'^\d+\.?\s*', '', line)`: strip leading digits, an optional
dot, and trailing whitespace of that prefix.  Anchored, so it fires at most
once, and only when the line starts with a digit. -/
def stripLineNumbering (l : List Char) : List Char :=
  match l with
  | c :: _ =>
    if c.isDigit then
      let rest := l.dropWhile Char.isDigit
      let rest := match rest with
        | '.' :: r => r
        | r => r
      rest.dropWhile pyIsSpace
    else l
  | [] => l

/-- The characters of the bullet class in `re.sub(r'^[-*â€¢]\s*', '', line)`
(source line 146; the on-disk bytes give the five characters below). -/
def bulletChars : List Char := ['-', '*', 'â', '€', '¢']

/-- `re.sub(r'^[-*â€¢]\s*', '', line)`: strip one leading bullet character
and the whitespace after it.  Anchored, fires at most once. -/
def stripLineBullet (l : List Char) : List Char :=
  match l with
  | c :: rest => if bulletChars.contains c then rest.dropWhile pyIsSpace else l
  | [] => l

/-- Python `str.split('\n')` on character lists: `""` gives one empty
field, a trailing separator gives a trailing empty field. -/
def pySplitNl : List Char → List (List Char)
  | [] => [[]]
  | c :: cs =>
    let r := pySplitNl cs
    if c = '\n' then [] :: r
    else
      match r with
      | h :: t => (c :: h) :: t
      | [] => [[c]]

/-- The response-parsing loop of lines 140-148: split the stripped response
into lines, strip each line, remove numbering and bullets, and keep lines
longer than 5 characters. -/
def parseQueries (response : String) : List String :=
  (pySplitNl (stripChars response.data)).filterMap (fun l =>
    let l := stripChars l
    let l := stripLineNumbering l
    let l := stripLineBullet l
    -- `if line and len(line) > 5`
    if l ≠ [] ∧ 5 < l.length then some (⟨l⟩ : String) else none)

/-- One iteration of the padding loop of lines 155-161 when exactly one
query is present: append `"what is {prompt}"`. -/
def fillWhatIs (cfg : Config) (prompt : String) (queries : List String) :
    List String :=
  if queries.length < cfg.numSearchQueries ∧ queries.length = 1 then
    queries ++ ["what is " ++ prompt]
  else queries

/-- One iteration of the padding loop when exactly two queries are present:
append `"how to {prompt}"`. -/
def fillHowTo (cfg : Config) (prompt : String) (queries : List String) :
    List String :=
  if queries.length < cfg.numSearchQueries ∧ queries.length = 2 then
    queries ++ ["how to " ++ prompt]
  else queries

/-- The `while len(queries) < self.num_search_queries` padding loop of
lines 155-161, unrolled: the loop body appends `"what is {prompt}"` when
exactly one query is present and `"how to {prompt}"` when exactly two are,
and breaks at any other length, so it runs at most twice. -/
def fillQueries (cfg : Config) (prompt : String) (queries : List String) :
    List String :=
  fillHowTo cfg prompt (fillWhatIs cfg prompt queries)

/-- `AsyncWebSearchService.generate_search_queries` (source lines 112-169):
call the LLM, parse its response, fall back to `[prompt]` when no usable
query was parsed, pad, truncate to `num_search_queries`; any exception
(notably one raised by the LLM call) is caught and yields `[prompt]`. -/
def generateSearchQueries (cfg : Config) (env : Env) (prompt : String) :
    Except Unit (List String) :=
  pyTry
    (env.llm (queryGenerationPrompt cfg prompt) >>= fun response =>
      let queries := parseQueries response
      -- `if not queries: queries = [prompt]`
      let queries := if queries.isEmpty then [prompt] else queries
      let queries := fillQueries cfg prompt queries
      -- `return queries[:self.num_search_queries]`
      pure (queries.take cfg.numSearchQueries))
    (fun _ => .ok [prompt])

example :
    generateSearchQueries
      { googleApiKey := "g", googleSearchEngineId := "x", serpapiKey := "s",
        numSearchQueries := 3, numResultsPerQuery := 3,
        enableDomainFiltering := true, allowedDomains := [] }
      { llm := fun _ => .ok "1. autism therapy news\n- current guidelines",
        googleGet := fun _ => .error (), serpGet := fun _ => .error (),
        fetch := fun _ => .error (), htmlExtract := fun _ => .error () }
      "autism" =
    .ok ["autism therapy news", "current guidelines", "how to autism"] := rfl

/-! ## Search providers (`search_google_custom`, `search_serpapi`,
`search_single_query`, source lines 171-263 and 435-460) -/

/-- One normalised search result, a Python dict; a `none` field models an
absent key, read back with `result.get(key, default)`. -/
structure SearchResult where
  title : Option String
  snippet : Option String
  url : Option String
  source : Option String
  deriving DecidableEq, Repr

/-- Build the result dicts of lines 201-207 / 247-254 from the JSON
items. -/
def mkResults (items : List ApiItem) (sourceName : String) : List SearchResult :=
  items.map (fun item =>
    { title := some (item.title.getD "")
      snippet := some (item.snippet.getD "")
      url := some (item.link.getD "")
      source := some sourceName })

/-- `AsyncWebSearchService.search_google_custom` (source lines 171-216):
`none` is Python's `None` ("this provider produced nothing").  The guard
checks both the API key and the engine id; the `try` block catches the
request raising, a non-200 status returns `None`, and a non-empty item
list is required (`return results if results else None`). -/
def searchGoogleCustom (cfg : Config) (env : Env) (query : String) :
    Except Unit (Option (List SearchResult)) :=
  -- `if not self.google_api_key or not self.google_search_engine_id`
  if cfg.googleApiKey = "" ∨ cfg.googleSearchEngineId = "" then .ok none
  else
    pyTry
      (env.googleGet query >>= fun resp =>
        if resp.status = 200 then
          resp.jsonItems >>= fun items? =>
            let results := mkResults (items?.getD []) "Google Custom Search"
            pure (if results.isEmpty then none else some results)
        else pure none)
      (fun _ => .ok none)

/-- `AsyncWebSearchService.search_serpapi` (source lines 218-263), same
shape as `searchGoogleCustom` with the SerpAPI key and the
`organic_results` array. -/
def searchSerpapi (cfg : Config) (env : Env) (query : String) :
    Except Unit (Option (List SearchResult)) :=
  -- `if not self.serpapi_key`
  if cfg.serpapiKey = "" then .ok none
  else
    pyTry
      (env.serpGet query >>= fun resp =>
        if resp.status = 200 then
          resp.jsonItems >>= fun items? =>
            let results := mkResults (items?.getD []) "SerpAPI"
            pure (if results.isEmpty then none else some results)
        else pure none)
      (fun _ => .ok none)

/-- The value of the `search_results` variable after the Google phase of
`search_single_query` (lines 446-452): the Google results when the function
was entered (`if self.google_api_key`) and produced a non-`None` list,
otherwise the initial `[]`. -/
def googlePhase (cfg : Config) (env : Env) (query : String) : List SearchResult :=
  if cfg.googleApiKey ≠ "" then
    match searchGoogleCustom cfg env query with
    | .ok (some rs) => rs
    | _ => []
  else []

/-- `AsyncWebSearchService.search_single_query` (source lines 435-460):
Google Custom Search first, SerpAPI only when the Google phase left
`search_results` empty. -/
def searchSingleQuery (cfg : Config) (env : Env) (query : String) :
    Except Unit (List SearchResult) :=
  (if cfg.googleApiKey ≠ "" then
    searchGoogleCustom cfg env query >>= fun googleResults =>
      -- `if google_results is not None: search_results = google_results`
      pure (googleResults.getD [])
  else pure []) >>= fun searchResults =>
  -- `if not search_results and self.serpapi_key`
  if searchResults.isEmpty ∧ cfg.serpapiKey ≠ "" then
    searchSerpapi cfg env query >>= fun serpapiResults =>
      pure (serpapiResults.getD searchResults)
  else pure searchResults

/-- Which providers `search_single_query` actually sends an HTTP request
to, in order.  `search_google_custom` issues its request only when both the
API key and the engine id are configured (line 182); `search_serpapi` is
reached only when the Google phase produced nothing and issues its request
when its key is configured (lines 229, 455). -/
inductive Provider | google | serpapi
  deriving DecidableEq, Repr

/-- The HTTP request trace of one `search_single_query` call. -/
def searchSingleQueryCalls (cfg : Config) (env : Env) (query : String) :
    List Provider :=
  (if cfg.googleApiKey ≠ "" ∧ cfg.googleSearchEngineId ≠ "" then
     [Provider.google]
   else []) ++
  (if (googlePhase cfg env query).isEmpty ∧ cfg.serpapiKey ≠ "" then
     [Provider.serpapi]
   else [])

/-! ## Content extraction (`extract_content_from_url` and helpers,
source lines 265-433) -/

/-- The unsupported-extension list of line 281. -/
def skipExtensions : List String :=
  [".doc", ".docx", ".xls", ".xlsx", ".ppt", ".pptx", ".zip", ".rar"]

/-- `AsyncWebSearchService._extract_pdf_content` (source lines 319-336):
concatenate the text of every page followed by `"\n"`, then clean; any
exception (reading the body, PyPDF2 parsing) yields `None`. -/
def extractPdfContent (resp : PageResp) : Except Unit (Option String) :=
  pyTry
    (resp.pdfPages >>= fun pages =>
      pure (cleanText (pages.foldl (fun acc p => acc ++ p ++ "\n") "")))
    (fun _ => .ok none)

/-- `AsyncWebSearchService._extract_html_content` (source lines 338-393):
the BeautifulSoup work (element stripping, the selector cascade, the body
fallback) is abstracted as `env.htmlExtract`; its text is cleaned, and a
parsing exception yields `None`. -/
def extractHtmlContent (env : Env) (htmlContent : String) :
    Except Unit (Option String) :=
  pyTry
    (env.htmlExtract htmlContent >>= fun extracted =>
      pure (cleanText extracted))
    (fun _ => .ok none)

/-- `AsyncWebSearchService.extract_content_from_url` (source lines
265-317): skip unsupported extensions, fetch, require status 200, then
dispatch on `is_pdf` (the URL contains `"pdf"`) or the declared content
type.  The surrounding `try/except` turns any escaped exception (timeout,
network error, `response.text()` failing) into `None`. -/
def extractContentFromUrl (env : Env) (url : String) :
    Except Unit (Option String) :=
  -- `is_pdf = 'pdf' in url.lower()`
  let isPdf := strContains (lowerStr url) "pdf"
  -- `if any(url.lower().endswith(ext) for ext in skip_extensions)`
  pyTry
    (if skipExtensions.any (fun ext => strEndsWith (lowerStr url) ext) then
      pure none
     else
      env.fetch url >>= fun resp =>
        if resp.status ≠ 200 then pure none
        else
          -- `content_type = response.headers.get('content-type', '').lower()`
          let contentType := lowerStr resp.contentType
          if isPdf || strContains contentType "application/pdf" then
            extractPdfContent resp
          else if strContains contentType "text/html" || contentType = "" then
            resp.textBody >>= fun content => extractHtmlContent env content
          else if strContains contentType "text/plain" then
            resp.textBody >>= fun textContent => pure (cleanText textContent)
          else pure none)
    (fun _ => .ok none)

/-- The branch `extract_content_from_url` ends in, mirroring the `if`
structure of lines 276-310 exactly; used to state the content-type
dispatch property. -/
inductive ExtractPath
  | skipped      -- unsupported extension, no request issued
  | fetchError   -- the request raised (timeout, network error)
  | httpError    -- non-200 status
  | pdf          -- `_extract_pdf_content`
  | html         -- `_extract_html_content`
  | plain        -- `_clean_text` on the text body
  | unsupported  -- any other content type
  deriving DecidableEq, Repr

/-- Which extraction path `extract_content_from_url` takes for `url`. -/
def extractPathOf (env : Env) (url : String) : ExtractPath :=
  let isPdf := strContains (lowerStr url) "pdf"
  if skipExtensions.any (fun ext => strEndsWith (lowerStr url) ext) then
    .skipped
  else
    match env.fetch url with
    | .error _ => .fetchError
    | .ok resp =>
      if resp.status ≠ 200 then .httpError
      else
        let contentType := lowerStr resp.contentType
        if isPdf || strContains contentType "application/pdf" then .pdf
        else if strContains contentType "text/html" || contentType = "" then .html
        else if strContains contentType "text/plain" then .plain
        else .unsupported

/-! ## Result assembly and the orchestrator (`extract_content_from_results`
and `search_and_extract`, source lines 462-564) -/

/-- The `result_entry` dict of lines 500-507. -/
structure ExtractedDocument where
  title : String
  contents : String
  url : String
  query : String
  source : String
  contentLength : Nat
  deriving DecidableEq, Repr

/-- `asyncio.gather(*tasks, return_exceptions=False)`, sequentialised: the
values in order, or the first exception. -/
def gatherE : List (Except Unit α) → Except Unit (List α)
  | [] => .ok []
  | t :: ts => do
    let v ← t
    let vs ← gatherE ts
    pure (v :: vs)

/-- The `extraction_tasks` list of lines 475-480: the `(url, result)` pairs
whose URL is non-empty (`result.get('url', '')` is truthy) and allowed by
the domain filter.  (The stored task is the extraction of that URL.) -/
def extractionTasks (cfg : Config) (searchResults : List SearchResult) :
    List (String × SearchResult) :=
  searchResults.filterMap (fun result =>
    -- `url = result.get('url', ''); if url and self.is_url_allowed(url)`
    if result.url.getD "" ≠ "" ∧ isUrlAllowed cfg (result.url.getD "") then
      some (result.url.getD "", result)
    else none)

/-- The `final_content` of lines 491-496: the extracted content, or the
snippet when extraction returned `None`. -/
def finalContentOf (extractedContent : Option String) (result : SearchResult) :
    String :=
  match extractedContent with
  | some c => c
  | none => result.snippet.getD ""

/-- The per-result emission step of lines 489-508: emit a document only
when the final content is truthy and not whitespace-only. -/
def buildDocument (query : String) (extractedContent : Option String)
    (result : SearchResult) : Option ExtractedDocument :=
  -- `if final_content and final_content.strip()`
  if finalContentOf extractedContent result ≠ "" ∧
     stripStr (finalContentOf extractedContent result) ≠ "" then
    some { title := result.title.getD "Untitled"
           contents := finalContentOf extractedContent result
           url := result.url.getD ""
           query := query
           source := result.source.getD "Unknown"
           contentLength := (finalContentOf extractedContent result).length }
  else none

/-- `AsyncWebSearchService.extract_content_from_results` (source lines
462-510): build the extraction tasks, gather them (`return_exceptions=False`
re-raises the first task exception), and zip the contents back with their
results. -/
def extractContentFromResults (cfg : Config) (env : Env)
    (searchResults : List SearchResult) (query : String) :
    Except Unit (List ExtractedDocument) :=
  gatherE ((extractionTasks cfg searchResults).map
      (fun t => extractContentFromUrl env t.1)) >>= fun extractedContents =>
  pure ((extractedContents.zip ((extractionTasks cfg searchResults).map Prod.snd)).filterMap
    (fun p => buildDocument query p.1 p.2))

/-- `AsyncWebSearchService.search_and_extract` (source lines 512-564):
generate queries, search them all (gathered), keep the non-empty result
lists paired with their queries, extract (gathered), and flatten the
non-empty document lists. -/
def searchAndExtract (cfg : Config) (env : Env) (prompt : String) :
    Except Unit (List ExtractedDocument) :=
  generateSearchQueries cfg env prompt >>= fun searchQueries =>
  gatherE (searchQueries.map (searchSingleQuery cfg env)) >>= fun searchResultsLists =>
  -- lines 538-546: keep `(query, results)` with non-empty `results`
  gatherE (((searchQueries.zip searchResultsLists).filterMap
      (fun p => if p.2.isEmpty then none else some p)).map
    (fun p => extractContentFromResults cfg env p.2 p.1)) >>= fun allResultsLists =>
  -- lines 557-561: extend by each non-empty results list
  pure (allResultsLists.foldl (fun acc l => if l.isEmpty then acc else acc ++ l) [])

/-! ## Helper lemmas -/

theorem pyTry_isOk (body : Except Unit α) (c : α) :
    ∃ v, pyTry body (fun _ => .ok c) = .ok v := by
  cases body with
  | ok a => exact ⟨a, rfl⟩
  | error e => exact ⟨c, rfl⟩

theorem bind_isOk {x : Except Unit α} {f : α → Except Unit β}
    (h1 : ∃ v, x = Except.ok v) (h2 : ∀ v, ∃ w, f v = Except.ok w) :
    ∃ w, (x >>= f) = Except.ok w := by
  rcases h1 with ⟨v, hv⟩
  rcases h2 v with ⟨w, hw⟩
  exact ⟨w, by simp [hv, Bind.bind, Except.bind, hw]⟩

theorem gatherE_isOk (l : List (Except Unit α))
    (h : ∀ t ∈ l, ∃ v, t = .ok v) : ∃ vs, gatherE l = .ok vs := by
  induction l with
  | nil => exact ⟨[], rfl⟩
  | cons t ts ih =>
    rcases h t (by simp) with ⟨v, hv⟩
    rcases ih (fun t' ht' => h t' (by simp [ht'])) with ⟨vs, hvs⟩
    exact ⟨v :: vs, by simp [gatherE, hv, hvs, Bind.bind, Except.bind, Pure.pure, Except.pure]⟩

theorem generateSearchQueries_isOk (cfg : Config) (env : Env) (prompt : String) :
    ∃ qs, generateSearchQueries cfg env prompt = .ok qs := by
  unfold generateSearchQueries
  exact pyTry_isOk _ _

theorem searchGoogleCustom_isOk (cfg : Config) (env : Env) (query : String) :
    ∃ v, searchGoogleCustom cfg env query = .ok v := by
  unfold searchGoogleCustom
  split
  · exact ⟨none, rfl⟩
  · exact pyTry_isOk _ _

theorem searchSerpapi_isOk (cfg : Config) (env : Env) (query : String) :
    ∃ v, searchSerpapi cfg env query = .ok v := by
  unfold searchSerpapi
  split
  · exact ⟨none, rfl⟩
  · exact pyTry_isOk _ _

theorem searchSingleQuery_isOk (cfg : Config) (env : Env) (query : String) :
    ∃ rs, searchSingleQuery cfg env query = .ok rs := by
  unfold searchSingleQuery
  apply bind_isOk
  · split
    · exact bind_isOk (searchGoogleCustom_isOk cfg env query) (fun a => ⟨_, rfl⟩)
    · exact ⟨[], rfl⟩
  · intro searchResults
    split
    · exact bind_isOk (searchSerpapi_isOk cfg env query) (fun a => ⟨_, rfl⟩)
    · exact ⟨searchResults, rfl⟩

theorem extractContentFromUrl_isOk (env : Env) (url : String) :
    ∃ v, extractContentFromUrl env url = .ok v := by
  unfold extractContentFromUrl
  exact pyTry_isOk _ _

/-- The value `extract_content_from_url` produces (it always returns,
never raises). -/
def extractValue (env : Env) (url : String) : Option String :=
  match extractContentFromUrl env url with
  | .ok v => v
  | .error _ => none

theorem extractContentFromUrl_eq (env : Env) (url : String) :
    extractContentFromUrl env url = .ok (extractValue env url) := by
  rcases extractContentFromUrl_isOk env url with ⟨v, hv⟩
  rw [extractValue, hv]

theorem gatherE_map_ok {l : List β} {f : β → Except Unit α} {g : β → α}
    (h : ∀ b ∈ l, f b = .ok (g b)) :
    gatherE (l.map f) = .ok (l.map g) := by
  induction l with
  | nil => rfl
  | cons b bs ih =>
    simp only [List.map_cons, gatherE, h b (by simp),
      ih (fun b' hb' => h b' (by simp [hb'])), Bind.bind, Except.bind,
      Pure.pure, Except.pure]

/-- `extract_content_from_results` always returns, and its value is the
per-task emission over the filtered tasks. -/
theorem extractContentFromResults_eq (cfg : Config) (env : Env)
    (searchResults : List SearchResult) (query : String) :
    extractContentFromResults cfg env searchResults query =
      .ok ((extractionTasks cfg searchResults).filterMap
        (fun t => buildDocument query (extractValue env t.1) t.2)) := by
  unfold extractContentFromResults
  rw [gatherE_map_ok (g := fun t => extractValue env t.1)
    (fun t _ => extractContentFromUrl_eq env t.1)]
  simp only [Bind.bind, Except.bind, List.zip_map', List.filterMap_map]
  rfl

/-! ## C1 — the orchestrator never raises -/

/-- C1: for every configuration, every environment (the LLM call, every
provider request, every fetch and every parse may fail arbitrarily) and
every prompt, `search_and_extract` returns a list of documents; no expected
failure mode escapes as an exception. -/
theorem searchAndExtract_never_raises (cfg : Config) (env : Env) (prompt : String) :
    ∃ docs, searchAndExtract cfg env prompt = .ok docs := by
  unfold searchAndExtract
  apply bind_isOk (generateSearchQueries_isOk cfg env prompt)
  intro searchQueries
  apply bind_isOk
  · exact gatherE_isOk _ (by
      intro t ht
      rcases List.mem_map.1 ht with ⟨q, _, rfl⟩
      exact searchSingleQuery_isOk cfg env q)
  intro searchResultsLists
  apply bind_isOk
  · exact gatherE_isOk _ (by
      intro t ht
      rcases List.mem_map.1 ht with ⟨p, _, rfl⟩
      exact ⟨_, extractContentFromResults_eq cfg env p.2 p.1⟩)
  intro allResultsLists
  exact ⟨_, rfl⟩

/-! ## C2 and C10 — properties of the emitted documents -/

theorem mem_extractionTasks {cfg : Config} {rs : List SearchResult}
    {t : String × SearchResult} :
    t ∈ extractionTasks cfg rs ↔
      ∃ r ∈ rs, (r.url.getD "" ≠ "" ∧ isUrlAllowed cfg (r.url.getD "")) ∧
        t = (r.url.getD "", r) := by
  unfold extractionTasks
  rw [List.mem_filterMap]
  constructor
  · rintro ⟨r, hr, h⟩
    split_ifs at h with hc
    exact ⟨r, hr, hc, (Option.some_inj.mp h).symm⟩
  · rintro ⟨r, hr, hc, rfl⟩
    exact ⟨r, hr, by rw [if_pos hc]⟩

/-- C2: every document `extract_content_from_results` emits has contents
that are neither empty nor whitespace-only, and those contents are the
extracted text of the result's URL when extraction returned text, and the
result's snippet otherwise; a result for which neither survives the
whitespace check contributes no document. -/
theorem extracted_contents_never_blank (cfg : Config) (env : Env)
    (rs : List SearchResult) (query : String) (docs : List ExtractedDocument)
    (d : ExtractedDocument)
    (hok : extractContentFromResults cfg env rs query = .ok docs)
    (hd : d ∈ docs) :
    stripStr d.contents ≠ "" ∧ d.contents ≠ "" ∧
      ∃ r ∈ rs, ∃ c, extractContentFromUrl env (r.url.getD "") = .ok c ∧
        d.contents = (match c with
          | some text => text
          | none => r.snippet.getD "") := by
  rw [extractContentFromResults_eq] at hok
  injection hok with hdocs
  subst hdocs
  rcases List.mem_filterMap.1 hd with ⟨t, ht, hb⟩
  rcases mem_extractionTasks.1 ht with ⟨r, hr, hcond, rfl⟩
  unfold buildDocument at hb
  split_ifs at hb with hc
  injection hb with hbd
  subst hbd
  exact ⟨hc.2, hc.1, r, hr, extractValue env (r.url.getD ""),
    extractContentFromUrl_eq env (r.url.getD ""), rfl⟩

/-- C10: a search result whose `url` key is missing or empty is filtered
out before extraction — no extraction task is created for it — and every
emitted document carries a non-empty URL, so such a result is never
emitted, whatever its snippet holds. -/
theorem urlless_result_never_emitted (cfg : Config) (env : Env)
    (rs : List SearchResult) (query : String) (docs : List ExtractedDocument)
    (r : SearchResult)
    (hok : extractContentFromResults cfg env rs query = .ok docs)
    (hr : r ∈ rs) (hurl : r.url.getD "" = "") :
    (∀ t ∈ extractionTasks cfg rs, t.2 ≠ r) ∧ ∀ d ∈ docs, d.url ≠ "" := by
  constructor
  · intro t ht heq
    rcases mem_extractionTasks.1 ht with ⟨r', _, hcond, rfl⟩
    exact hcond.1 (by rw [← heq] at hurl; exact hurl)
  · intro d hd
    rw [extractContentFromResults_eq] at hok
    injection hok with hdocs
    subst hdocs
    rcases List.mem_filterMap.1 hd with ⟨t, ht, hb⟩
    rcases mem_extractionTasks.1 ht with ⟨r', _, hcond, rfl⟩
    unfold buildDocument at hb
    split_ifs at hb with hc
    injection hb with hbd
    subst hbd
    exact hcond.1

/-! Concrete fixtures used by the witnesses below. -/

/-- A configuration with domain filtering disabled and no credentials. -/
def cfgNoFilter : Config :=
  { googleApiKey := "", googleSearchEngineId := "", serpapiKey := "",
    numSearchQueries := 3, numResultsPerQuery := 3,
    enableDomainFiltering := false, allowedDomains := [] }

/-- An environment in which every external operation raises. -/
def envAllError : Env :=
  { llm := fun _ => .error (), googleGet := fun _ => .error (),
    serpGet := fun _ => .error (), fetch := fun _ => .error (),
    htmlExtract := fun _ => .error () }

/-- A well-formed search result whose extraction will fail (so its snippet
is used). -/
def resultGood : SearchResult :=
  { title := some "Autism guide", snippet := some "autism info",
    url := some "https://nih.gov/autism", source := some "Google Custom Search" }

/-- A search result with no `url` key and a non-empty snippet. -/
def resultNoUrl : SearchResult :=
  { title := some "No url", snippet := some "orphan snippet",
    url := none, source := some "SerpAPI" }

/-- The document the pipeline emits for `resultGood` under `envAllError`. -/
def docGood : ExtractedDocument :=
  { title := "Autism guide", contents := "autism info",
    url := "https://nih.gov/autism", query := "autism therapy",
    source := "Google Custom Search", contentLength := 11 }

theorem extracted_contents_never_blank_witness :
    stripStr docGood.contents ≠ "" ∧ docGood.contents ≠ "" ∧
      ∃ r ∈ [resultNoUrl, resultGood], ∃ c,
        extractContentFromUrl envAllError (r.url.getD "") = .ok c ∧
          docGood.contents = (match c with
            | some text => text
            | none => r.snippet.getD "") :=
  extracted_contents_never_blank cfgNoFilter envAllError [resultNoUrl, resultGood]
    "autism therapy" [docGood] docGood rfl (by simp)

theorem urlless_result_never_emitted_witness :
    ((("https://nih.gov/autism" : String), resultGood).2 ≠ resultNoUrl) ∧
      docGood.url ≠ "" := by
  have h := urlless_result_never_emitted cfgNoFilter envAllError
    [resultNoUrl, resultGood] "autism therapy" [docGood] resultNoUrl rfl
    (by simp) rfl
  exact ⟨h.1 ("https://nih.gov/autism", resultGood) (by decide), h.2 docGood (by simp)⟩

/-! ## C3 — content-type dispatch in `extract_content_from_url` -/

/-- An environment whose fetch declares `text/html` for every URL. -/
def envHtmlResponse : Env :=
  { llm := fun _ => .error (), googleGet := fun _ => .error (),
    serpGet := fun _ => .error (),
    fetch := fun _ => .ok { status := 200, contentType := "text/html",
                            textBody := .ok "<html><body>hi</body></html>",
                            pdfPages := .error () },
    htmlExtract := fun _ => .error () }

/-- C3 counterexample: for the URL `https://example.com/pdf-guide` (which
contains `"pdf"`) a response declaring content type `text/html` is routed
to the PDF extraction path, not the HTML path, because the `is_pdf` URL
heuristic is checked first (source line 295). -/
theorem html_contentType_takes_pdf_path :
    strContains (lowerStr "text/html") "text/html" = true ∧
    extractPathOf envHtmlResponse "https://example.com/pdf-guide" =
      ExtractPath.pdf ∧
    ExtractPath.pdf ≠ ExtractPath.html := by
  refine ⟨by decide, ?_, by decide⟩
  rfl

/-- C3 amended: for a URL that is not rejected by the unsupported-extension
pre-check and whose fetch succeeds with status 200: a response declaring
`application/pdf` takes the PDF path regardless of the URL's suffix; a
response declaring `text/html` takes the HTML path only when, additionally,
the URL does not contain `"pdf"` (case-insensitively) and the declared type
does not also contain `application/pdf`; a URL containing `"pdf"` always
takes the PDF path. -/
theorem contentType_dispatch (env : Env) (url : String) (resp : PageResp)
    (hskip : skipExtensions.any (fun ext => strEndsWith (lowerStr url) ext) = false)
    (hfetch : env.fetch url = .ok resp) (hstatus : resp.status = 200) :
    (strContains (lowerStr resp.contentType) "application/pdf" = true →
      extractPathOf env url = ExtractPath.pdf) ∧
    (strContains (lowerStr url) "pdf" = true →
      extractPathOf env url = ExtractPath.pdf) ∧
    (strContains (lowerStr url) "pdf" = false →
     strContains (lowerStr resp.contentType) "application/pdf" = false →
     strContains (lowerStr resp.contentType) "text/html" = true →
      extractPathOf env url = ExtractPath.html) := by
  unfold extractPathOf
  rw [hfetch]
  simp only [hskip, Bool.false_eq_true, if_false, hstatus]
  refine ⟨fun hct => ?_, fun hu => ?_, fun hu hct hhtml => ?_⟩
  · simp [hct]
  · simp [hu]
  · simp [hu, hct, hhtml]

/-- An environment whose fetch declares `application/pdf` for every URL. -/
def envPdfResponse : Env :=
  { llm := fun _ => .error (), googleGet := fun _ => .error (),
    serpGet := fun _ => .error (),
    fetch := fun _ => .ok { status := 200, contentType := "application/pdf",
                            textBody := .ok "", pdfPages := .ok ["page one"] },
    htmlExtract := fun _ => .error () }

theorem contentType_dispatch_witness :
    extractPathOf envPdfResponse "https://example.com/guide.html" =
      ExtractPath.pdf :=
  (contentType_dispatch envPdfResponse "https://example.com/guide.html"
    { status := 200, contentType := "application/pdf",
      textBody := .ok "", pdfPages := .ok ["page one"] }
    (by decide) rfl rfl).1 (by decide)

/-! ## C4 — construction with a missing provider credential -/

/-- C4: the constructor reads the credentials with `os.environ[...]`
(source lines 50-52), so an environment in which `GOOGLE_SEARCH_API_KEY`
is absent makes construction raise `KeyError` instead of silently
disabling the provider.  By contrast a credential that is present but
empty does construct, and that provider is then skipped: no provider
request is issued when all three credentials are the empty string. -/
theorem missing_credential_raises :
    serviceInit [("GOOGLE_SEARCH_ENGINE_ID", "x"), ("SERPAPI_KEY", "s")] 3 3 =
      .error () ∧
    serviceInit [("GOOGLE_SEARCH_API_KEY", ""), ("GOOGLE_SEARCH_ENGINE_ID", ""),
        ("SERPAPI_KEY", "")] 3 3 =
      .ok { googleApiKey := "", googleSearchEngineId := "", serpapiKey := "",
            numSearchQueries := 3, numResultsPerQuery := 3,
            enableDomainFiltering := ENABLE_DOMAIN_FILTERING,
            allowedDomains := ALLOWED_DOMAINS } ∧
    searchSingleQueryCalls cfgNoFilter envAllError "autism" = [] ∧
    searchSingleQuery cfgNoFilter envAllError "autism" = .ok [] :=
  ⟨rfl, rfl, rfl, rfl⟩

/-! ## C5 — the domain filter -/

/-- A configuration with filtering enabled and the repository's allow-list
(the values `serviceInit` installs from `backend/constants.py`). -/
def cfgFiltering : Config :=
  { googleApiKey := "g", googleSearchEngineId := "x", serpapiKey := "s",
    numSearchQueries := 3, numResultsPerQuery := 3,
    enableDomainFiltering := ENABLE_DOMAIN_FILTERING,
    allowedDomains := ALLOWED_DOMAINS }

/-- C5 counterexample: the string `"foo"` parses with an *empty* host
(`urlparse` only raises for malformed authorities), and the empty host is
a substring of every allow-list entry, so `is_url_allowed` returns `true`
for it — the filter does not fail closed on a URL with no usable host. -/
theorem hostless_url_is_allowed :
    urlparseNetloc (lowerStr "foo") = .ok "" ∧
    isUrlAllowed cfgFiltering "foo" = true := by
  exact ⟨rfl, rfl⟩

/-- C5 amended: with filtering enabled, a URL whose parse *raises* is
disallowed (fails closed), and otherwise the URL is allowed exactly when
its parsed host — which may be empty, in which case it matches every
entry — with a leading `www.` stripped, matches some allow-list entry as a
substring in either direction, case-insensitively (the URL is lower-cased
before parsing, the entry when compared). -/
theorem isUrlAllowed_characterisation (cfg : Config) (url : String)
    (hf : cfg.enableDomainFiltering = true) :
    (urlparseNetloc (lowerStr url) = .error () → isUrlAllowed cfg url = false) ∧
    (∀ netloc, urlparseNetloc (lowerStr url) = .ok netloc →
      (isUrlAllowed cfg url = true ↔
        ∃ ad ∈ cfg.allowedDomains,
          (strContains (lowerStr ad)
            (if strStartsWith netloc "www." then (⟨netloc.data.drop 4⟩ : String)
             else netloc) = true ∨
           strContains
            (if strStartsWith netloc "www." then (⟨netloc.data.drop 4⟩ : String)
             else netloc) (lowerStr ad) = true))) := by
  unfold isUrlAllowed
  rw [hf]
  constructor
  · intro hparse
    rw [hparse]
    rfl
  · intro netloc hparse
    rw [hparse]
    simp only [Bool.not_true, Bool.false_eq_true, if_false, List.any_eq_true,
      Bool.or_eq_true]

theorem isUrlAllowed_characterisation_witness :
    isUrlAllowed cfgFiltering "http://[foo" = false ∧
    isUrlAllowed cfgFiltering "https://www.Example.GOV/page" = true := by
  constructor
  · exact (isUrlAllowed_characterisation cfgFiltering "http://[foo" rfl).1 rfl
  · exact ((isUrlAllowed_characterisation cfgFiltering
      "https://www.Example.GOV/page" rfl).2 "www.example.gov" rfl).2
      ⟨"gov", by decide, by decide⟩

/-! ## C6 — provider priority and fallback -/

/-- `search_google_custom` only reports a result list when it is
non-empty (`return results if results else None`, line 209). -/
theorem searchGoogleCustom_some_ne_nil {cfg : Config} {env : Env}
    {query : String} {rs : List SearchResult}
    (h : searchGoogleCustom cfg env query = .ok (some rs)) : rs ≠ [] := by
  unfold searchGoogleCustom at h
  split_ifs at h with hc
  · simp at h
  · cases hget : env.googleGet query with
    | error e => rw [hget] at h; simp [pyTry, Bind.bind, Except.bind] at h
    | ok resp =>
      rw [hget] at h
      simp only [Bind.bind, Except.bind] at h
      by_cases hst : resp.status = 200
      · rw [if_pos hst] at h
        cases hjson : resp.jsonItems with
        | error e => rw [hjson] at h; simp [pyTry] at h
        | ok items? =>
          rw [hjson] at h
          simp only [pyTry, Pure.pure, Except.pure] at h
          split_ifs at h with hie
          · simp at h
          · injection h with h'
            injection h' with h''
            subst h''
            simpa using hie
      · rw [if_neg hst] at h
        simp [pyTry, Pure.pure, Except.pure] at h

/-- C6: providers are tried strictly in priority order — when Google
Custom Search returns a (necessarily non-empty) result list, that list is
the answer and no SerpAPI request is issued; when the Google phase yields
nothing and SerpAPI is configured, exactly one SerpAPI request is issued
for the same query; and when both providers produce nothing the result is
the empty list, not an error. -/
theorem provider_fallback (cfg : Config) (env : Env) (query : String) :
    (∀ rs, searchGoogleCustom cfg env query = .ok (some rs) →
       searchSingleQuery cfg env query = .ok rs ∧
       Provider.serpapi ∉ searchSingleQueryCalls cfg env query) ∧
    ((googlePhase cfg env query).isEmpty = true → cfg.serpapiKey ≠ "" →
       (searchSingleQueryCalls cfg env query).count Provider.serpapi = 1) ∧
    (searchGoogleCustom cfg env query = .ok none →
     searchSerpapi cfg env query = .ok none →
       searchSingleQuery cfg env query = .ok []) := by
  refine ⟨?_, ?_, ?_⟩
  · intro rs hg
    have hkey : cfg.googleApiKey ≠ "" := by
      intro hk
      unfold searchGoogleCustom at hg
      rw [if_pos (Or.inl hk)] at hg
      simp at hg
    have hne := searchGoogleCustom_some_ne_nil hg
    have hie : rs.isEmpty = false := by
      cases rs with
      | nil => exact absurd rfl hne
      | cons a as => rfl
    constructor
    · unfold searchSingleQuery
      rw [if_pos hkey, hg]
      simp only [Bind.bind, Except.bind, Pure.pure, Except.pure, Option.getD_some]
      rw [if_neg (fun hcon => by simp [hie] at hcon)]
    · unfold searchSingleQueryCalls
      have hphase : googlePhase cfg env query = rs := by
        unfold googlePhase
        rw [if_pos hkey, hg]
      rw [hphase]
      intro hmem
      rcases List.mem_append.1 hmem with h1 | h2
      · split_ifs at h1
        · exact absurd h1 (by decide)
        · simp at h1
      · split_ifs at h2 with hc
        · exact absurd hc.1 (by simp [hie])
        · simp at h2
  · intro hempty hserp
    unfold searchSingleQueryCalls
    rw [List.count_append]
    split_ifs <;> first
      | decide
      | exact absurd (And.intro hempty hserp) (by assumption)
  · intro hg hs
    unfold searchSingleQuery
    have hred : ∀ (x : Except Unit (List SearchResult)), x = .ok [] →
        (x >>= fun searchResults =>
          if searchResults.isEmpty ∧ cfg.serpapiKey ≠ "" then
            searchSerpapi cfg env query >>= fun serpapiResults =>
              pure (serpapiResults.getD searchResults)
          else pure searchResults) = .ok [] := by
      intro x hx
      rw [hx]
      simp only [Bind.bind, Except.bind]
      by_cases hsk : cfg.serpapiKey ≠ ""
      · rw [if_pos ⟨rfl, hsk⟩, hs]
        rfl
      · rw [if_neg (fun hcon => hsk hcon.2)]
        rfl
    apply hred
    by_cases hkey : cfg.googleApiKey ≠ ""
    · rw [if_pos hkey, hg]
      rfl
    · rw [if_neg hkey]
      rfl

/-- An environment in which Google Custom Search returns one result. -/
def envGoogleHit : Env :=
  { llm := fun _ => .error (),
    googleGet := fun _ => .ok
      { status := 200,
        jsonItems := .ok (some [{ title := some "Autism news",
                                  snippet := some "snippet text",
                                  link := some "https://nih.gov/news" }]) },
    serpGet := fun _ => .error (), fetch := fun _ => .error (),
    htmlExtract := fun _ => .error () }

theorem provider_fallback_witness :
    searchSingleQuery cfgFiltering envGoogleHit "autism" =
      .ok [{ title := some "Autism news", snippet := some "snippet text",
             url := some "https://nih.gov/news",
             source := some "Google Custom Search" }] ∧
    Provider.serpapi ∉ searchSingleQueryCalls cfgFiltering envGoogleHit "autism" :=
  (provider_fallback cfgFiltering envGoogleHit "autism").1
    [{ title := some "Autism news", snippet := some "snippet text",
       url := some "https://nih.gov/news",
       source := some "Google Custom Search" }] rfl

/-! ## C7 — `_clean_text` output shape -/

/-- C7 counterexample: cleaning `"hello Cookie Policy"` removes the
boilerplate phrase but keeps the space before it, returning `"hello "` —
a non-empty result that still carries trailing whitespace, so the cleaned
text is not always trimmed. -/
theorem cleanText_returns_untrimmed_text :
    cleanText "hello Cookie Policy" = some "hello " ∧
    stripStr "hello " ≠ "hello " := by
  exact ⟨by decide, by decide⟩

/-- C7 amended: `_clean_text` returns either `None` or text that is
non-empty and contains at least one non-whitespace character; but because
the boilerplate substitutions run *after* the trim of line 403, the
returned text may carry leading or trailing whitespace, so it is not
necessarily trimmed. -/
theorem cleanText_none_or_nonblank (s t : String) (h : cleanText s = some t) :
    t ≠ "" ∧ stripStr t ≠ "" := by
  unfold cleanText at h
  split_ifs at h with h1 h2 h3
  injection h with ht
  subst ht
  refine ⟨fun he => h3 ?_, fun he => h3 ?_⟩
  · have hw : boilerplateStripped (normalizedText s) = [] := by
      simpa using congrArg String.data he
    rw [hw]
    rfl
  · simpa [stripStr] using congrArg String.data he

theorem cleanText_none_or_nonblank_witness :
    ("health advice" : String) ≠ "" ∧ stripStr "health advice" ≠ "" :=
  cleanText_none_or_nonblank "health advice" "health advice" rfl

/-! ## C8 — query expansion is never empty -/

/-- An environment whose LLM replies with a line too short to be kept by
the parser (`len(line) > 5` fails). -/
def envShortReply : Env :=
  { llm := fun _ => .ok "x", googleGet := fun _ => .error (),
    serpGet := fun _ => .error (), fetch := fun _ => .error (),
    htmlExtract := fun _ => .error () }

/-- A configuration whose `num_search_queries` is zero. -/
def cfgZeroQueries : Config :=
  { googleApiKey := "g", googleSearchEngineId := "x", serpapiKey := "s",
    numSearchQueries := 0, numResultsPerQuery := 3,
    enableDomainFiltering := true, allowedDomains := ALLOWED_DOMAINS }

/-- C8 counterexample: with `num_search_queries = 0` the final truncation
`queries[:self.num_search_queries]` (line 164) empties the list, so for a
non-empty prompt whose generator reply parses to zero usable queries the
expansion returns no query at all — the original prompt included. -/
theorem zero_query_config_returns_no_queries :
    ("autism therapy" : String) ≠ "" ∧
    generateSearchQueries cfgZeroQueries envShortReply "autism therapy" =
      .ok [] := by
  exact ⟨by decide, rfl⟩

/-- The padding loop only appends to the query list. -/
theorem fillQueries_append (cfg : Config) (p : String) (qs : List String) :
    ∃ ex, fillQueries cfg p qs = qs ++ ex := by
  unfold fillQueries fillHowTo fillWhatIs
  split_ifs
  · exact ⟨["what is " ++ p, "how to " ++ p], by simp⟩
  · exact ⟨["what is " ++ p], rfl⟩
  · exact ⟨["how to " ++ p], rfl⟩
  · exact ⟨[], by simp⟩

/-- C8 amended: provided the configured query count is at least one, a
non-empty prompt always expands to at least one query, and when the
generator call raises or its reply parses to zero usable queries, the
result contains the original prompt.  (With `num_search_queries = 0` the
truncation of line 164 can empty the list.) -/
theorem expansion_never_empty (cfg : Config) (env : Env) (prompt : String)
    (qs : List String) (hp : prompt ≠ "") (hn : 1 ≤ cfg.numSearchQueries)
    (hok : generateSearchQueries cfg env prompt = .ok qs) :
    qs ≠ [] ∧
      ((env.llm (queryGenerationPrompt cfg prompt) = .error () ∨
        (∃ r, env.llm (queryGenerationPrompt cfg prompt) = .ok r ∧
          parseQueries r = [])) →
        prompt ∈ qs) := by
  unfold generateSearchQueries at hok
  cases hllm : env.llm (queryGenerationPrompt cfg prompt) with
  | error e =>
    rw [hllm] at hok
    simp only [Bind.bind, Except.bind, pyTry] at hok
    injection hok with hq
    subst hq
    exact ⟨by simp, fun _ => by simp⟩
  | ok r =>
    rw [hllm] at hok
    simp only [Bind.bind, Except.bind, Pure.pure, Except.pure, pyTry] at hok
    injection hok with hq
    subst hq
    obtain ⟨n, hn'⟩ : ∃ n, cfg.numSearchQueries = n + 1 :=
      ⟨cfg.numSearchQueries - 1, by omega⟩
    have hbase : (if (parseQueries r).isEmpty then [prompt]
        else parseQueries r) ≠ [] := by
      split_ifs with hie
      · simp
      · simpa [List.isEmpty_iff] using hie
    obtain ⟨ex, hex⟩ := fillQueries_append cfg prompt
      (if (parseQueries r).isEmpty then [prompt] else parseQueries r)
    constructor
    · rw [hex]
      intro hnil
      have := congrArg List.length hnil
      rw [List.length_take, List.length_append] at this
      cases hb : (if (parseQueries r).isEmpty then [prompt]
          else parseQueries r) with
      | nil => exact hbase hb
      | cons a as =>
        rw [hb] at this
        simp [hn'] at this
    · intro hfail
      have hpr : parseQueries r = [] := by
        rcases hfail with he | ⟨r', hr', hpr'⟩
        · cases he
        · injection hr' with hrr
          subst hrr
          exact hpr'
      rw [hpr] at hex ⊢
      simp only [List.isEmpty_nil, if_pos] at hex ⊢
      rw [hex, hn']
      simp [List.take_succ_cons]

theorem expansion_never_empty_witness :
    (["autism support groups"] : List String) ≠ [] ∧
      ((envAllError.llm (queryGenerationPrompt cfgFiltering "autism support groups")
          = .error () ∨
        (∃ r, envAllError.llm (queryGenerationPrompt cfgFiltering "autism support groups")
            = .ok r ∧ parseQueries r = [])) →
        "autism support groups" ∈ (["autism support groups"] : List String)) :=
  expansion_never_empty cfgFiltering envAllError "autism support groups"
    ["autism support groups"] (by decide) (by decide) rfl

end WebSearch
